import Mathlib

/-!
Verification of the nginx-log-processor pipeline (src/main.py) against its
natural-language specification.  The Python code is shallowly embedded:
JSON values become the inductive `Json`, `json.loads` / `base64.b64decode` /
`bytes.decode("utf-8")` become executable Lean functions, the regex
`re.match` against the combined-log pattern becomes an explicit
backtracking matcher, and Python exceptions become `Except PyError`.

Modelling restrictions (documented, none affect the claims below):
JSON numbers are embedded as `Int` (floating-point literals such as `1.5`
make the embedded `json_loads` fail where CPython would produce a float);
`str.strip` / `\s` / `\d` character classes are the ASCII sets (CPython
additionally accepts non-ASCII Unicode whitespace/digits); `\uXXXX` string
escapes denoting surrogate code points decode to the replacement value of
`Char.ofNat`; `base64.b64decode` is modelled for ASCII input with padding
accepted only at the end of the data.
-/

namespace NginxLogProcessor

/-- Embedding of a decoded Python JSON value (the result of `json.loads`):
`None`, `bool`, `int`, `str`, `list`, `dict`. -/
inductive Json where
  | null : Json
  | bool (b : Bool) : Json
  | num (n : Int) : Json
  | str (s : String) : Json
  | arr (xs : List Json) : Json
  | obj (kvs : List (String × Json)) : Json

/-- Dictionary lookup.  Python builds dicts from JSON objects with the last
duplicate key winning, so lookup returns the last matching pair. -/
def jsonFind : Json → String → Option Json
  | Json.obj kvs, k => (kvs.reverse.find? (fun p => p.1 == k)).map (fun p => p.2)
  | _, _ => none

/-- Python truthiness of a JSON value, as used by `or` and `if`. -/
def Json.truthy : Json → Bool
  | Json.null => false
  | Json.bool b => b
  | Json.num n => n != 0
  | Json.str s => s != ""
  | Json.arr xs => !xs.isEmpty
  | Json.obj kvs => !kvs.isEmpty

/-- Python dict item assignment `d[k] = v` for a key not already present
(the only way the source uses it). -/
def jsonInsert (j : Json) (k : String) (v : Json) : Json :=
  match j with
  | Json.obj kvs => Json.obj (kvs ++ [(k, v)])
  | _ => j

/-- Whitespace accepted by the JSON grammar between tokens. -/
def isJsonWs (c : Char) : Bool :=
  c = ' ' || c = '\t' || c = '\n' || c = '\r'

/-- Skip JSON whitespace. -/
def skipWs (cs : List Char) : List Char := cs.dropWhile isJsonWs

/-- Value of a hexadecimal digit. -/
def hexVal (c : Char) : Option Nat :=
  if '0' ≤ c ∧ c ≤ '9' then some (c.toNat - 48)
  else if 'a' ≤ c ∧ c ≤ 'f' then some (c.toNat - 87)
  else if 'A' ≤ c ∧ c ≤ 'F' then some (c.toNat - 70)
  else none

/-- Body of a JSON string after the opening quote, honouring the escape
sequences CPython's strict decoder accepts and rejecting raw control
characters.  Returns the decoded characters and the input after the
closing quote. -/
def parseStringBody : List Char → Option (List Char × List Char)
  | [] => none
  | c :: rest =>
    if c = '"' then some ([], rest)
    else if c = '\\' then
      match rest with
      | [] => none
      | e :: rest2 =>
        if e = 'u' then
          match rest2 with
          | a :: b :: c2 :: d :: rest3 =>
            match hexVal a, hexVal b, hexVal c2, hexVal d with
            | some va, some vb, some vc, some vd =>
              (parseStringBody rest3).map
                (fun pr => (Char.ofNat (va * 4096 + vb * 256 + vc * 16 + vd) :: pr.1, pr.2))
            | _, _, _, _ => none
          | _ => none
        else
          match
            (if e = '"' then some '"'
             else if e = '\\' then some '\\'
             else if e = '/' then some '/'
             else if e = 'b' then some '\x08'
             else if e = 'f' then some '\x0c'
             else if e = 'n' then some '\n'
             else if e = 'r' then some '\r'
             else if e = 't' then some '\t'
             else none) with
          | some d => (parseStringBody rest2).map (fun pr => (d :: pr.1, pr.2))
          | none => none
    else if c.toNat < 32 then none
    else (parseStringBody rest).map (fun pr => (c :: pr.1, pr.2))

/-- Numeric value of a run of decimal digits. -/
def digitsVal (ds : List Char) : Nat :=
  ds.foldl (fun acc c => acc * 10 + (c.toNat - 48)) 0

/-- JSON integer literal: optional minus, no leading zeros.  A following
`.`/`e`/`E` (a float literal) is outside the embedding and fails. -/
def parseNumber (cs : List Char) : Option (Int × List Char) :=
  let signed := match cs with
    | '-' :: t => (true, t)
    | _ => (false, cs)
  match signed.2 with
  | [] => none
  | c :: _ =>
    if !c.isDigit then none
    else
      let ds := signed.2.takeWhile Char.isDigit
      let rest := signed.2.dropWhile Char.isDigit
      if 1 < ds.length ∧ ds.head? = some '0' then none
      else
        match rest with
        | '.' :: _ => none
        | 'e' :: _ => none
        | 'E' :: _ => none
        | _ =>
          let v : Int := Int.ofNat (digitsVal ds)
          some (if signed.1 then -v else v, rest)

/-- Literal match: drop `lit` from the front of `cs` or fail. -/
def litDrop (lit cs : List Char) : Option (List Char) :=
  if lit.isPrefixOf cs then some (cs.drop lit.length) else none

mutual

/-- Recursive-descent embedding of CPython `json.loads` value parsing.
Fuel only bounds the recursion; `json_loads` supplies enough for any
input. -/
def parseValue : Nat → List Char → Option (Json × List Char)
  | 0, _ => none
  | f + 1, cs =>
    match skipWs cs with
    | [] => none
    | c :: rest =>
      if c = '\x7b' then
        match skipWs rest with
        | '\x7d' :: rest2 => some (Json.obj [], rest2)
        | _ => (parseMembers f (skipWs rest)).map (fun pr => (Json.obj pr.1, pr.2))
      else if c = '[' then
        match skipWs rest with
        | ']' :: rest2 => some (Json.arr [], rest2)
        | _ => (parseItems f (skipWs rest)).map (fun pr => (Json.arr pr.1, pr.2))
      else if c = '"' then
        (parseStringBody rest).map (fun pr => (Json.str (String.mk pr.1), pr.2))
      else if c = 't' then
        (litDrop ['r', 'u', 'e'] rest).map (fun r => (Json.bool true, r))
      else if c = 'f' then
        (litDrop ['a', 'l', 's', 'e'] rest).map (fun r => (Json.bool false, r))
      else if c = 'n' then
        (litDrop ['u', 'l', 'l'] rest).map (fun r => (Json.null, r))
      else
        (parseNumber (c :: rest)).map (fun pr => (Json.num pr.1, pr.2))

/-- Members of a JSON object after the opening brace (input ws-skipped,
known non-empty-object). -/
def parseMembers : Nat → List Char → Option (List (String × Json) × List Char)
  | 0, _ => none
  | f + 1, cs =>
    match cs with
    | '"' :: rest =>
      match parseStringBody rest with
      | none => none
      | some (kcs, rest2) =>
        match skipWs rest2 with
        | ':' :: rest3 =>
          match parseValue f rest3 with
          | none => none
          | some (v, rest4) =>
            match skipWs rest4 with
            | ',' :: rest5 =>
              (parseMembers f (skipWs rest5)).map
                (fun pr => ((String.mk kcs, v) :: pr.1, pr.2))
            | '\x7d' :: rest5 => some ([(String.mk kcs, v)], rest5)
            | _ => none
        | _ => none
    | _ => none

/-- Items of a JSON array after the opening bracket (known non-empty). -/
def parseItems : Nat → List Char → Option (List Json × List Char)
  | 0, _ => none
  | f + 1, cs =>
    match parseValue f cs with
    | none => none
    | some (v, rest) =>
      match skipWs rest with
      | ',' :: rest2 => (parseItems f rest2).map (fun pr => (v :: pr.1, pr.2))
      | ']' :: rest2 => some ([v], rest2)
      | _ => none

end

/-- Embedding of `json.loads`: one value, optionally surrounded by
whitespace, nothing after it. -/
def json_loads (s : String) : Option Json :=
  match parseValue (2 * s.length + 2) s.data with
  | some (v, rest) => if (skipWs rest).isEmpty then some v else none
  | none => none

/-- Value of a base64 alphabet character. -/
def b64val (c : Char) : Option Nat :=
  if 'A' ≤ c ∧ c ≤ 'Z' then some (c.toNat - 65)
  else if 'a' ≤ c ∧ c ≤ 'z' then some (c.toNat - 71)
  else if '0' ≤ c ∧ c ≤ '9' then some (c.toNat + 4)
  else if c = '+' then some 62
  else if c = '/' then some 63
  else none

/-- Decode complete base64 quads (padding accepted only at the very end),
after non-alphabet characters have been discarded. -/
def b64quads : List Char → Option (List Nat)
  | [] => some []
  | a :: b :: c :: d :: rest =>
    match b64val a, b64val b with
    | some va, some vb =>
      if d = '=' then
        if rest.isEmpty then
          if c = '=' then some [va * 4 + vb / 16]
          else
            match b64val c with
            | some vc => some [va * 4 + vb / 16, (vb % 16) * 16 + vc / 4]
            | none => none
        else none
      else
        match b64val c, b64val d with
        | some vc, some vd =>
          (b64quads rest).map
            (fun bs => (va * 4 + vb / 16) :: ((vb % 16) * 16 + vc / 4) :: ((vc % 4) * 64 + vd) :: bs)
        | _, _ => none
    | _, _ => none
  | _ => none

/-- Embedding of `base64.b64decode` with `validate=False`: characters
outside the alphabet (other than `=`) are discarded, then the data must
form complete quads — otherwise `binascii.Error` (here: `none`). -/
def b64decode (s : String) : Option (List Nat) :=
  b64quads (s.data.filter (fun c => (b64val c).isSome || c = '='))

/-- Embedding of `bytes.decode("utf-8")` (strict): rejects invalid leads,
bad continuations, overlong forms, surrogates and out-of-range points. -/
def utf8_decode : List Nat → Option (List Char)
  | [] => some []
  | b :: rest =>
    if b < 128 then (utf8_decode rest).map (fun cs => Char.ofNat b :: cs)
    else if b < 194 then none
    else if b < 224 then
      match rest with
      | c1 :: rest2 =>
        if 128 ≤ c1 ∧ c1 < 192 then
          (utf8_decode rest2).map (fun cs => Char.ofNat ((b - 192) * 64 + (c1 - 128)) :: cs)
        else none
      | _ => none
    else if b < 240 then
      match rest with
      | c1 :: c2 :: rest2 =>
        if 128 ≤ c1 ∧ c1 < 192 ∧ 128 ≤ c2 ∧ c2 < 192 then
          let cp := (b - 224) * 4096 + (c1 - 128) * 64 + (c2 - 128)
          if cp < 2048 then none
          else if 55296 ≤ cp ∧ cp < 57344 then none
          else (utf8_decode rest2).map (fun cs => Char.ofNat cp :: cs)
        else none
      | _ => none
    else if b < 245 then
      match rest with
      | c1 :: c2 :: c3 :: rest2 =>
        if 128 ≤ c1 ∧ c1 < 192 ∧ 128 ≤ c2 ∧ c2 < 192 ∧ 128 ≤ c3 ∧ c3 < 192 then
          let cp := (b - 240) * 262144 + (c1 - 128) * 4096 + (c2 - 128) * 64 + (c3 - 128)
          if cp < 65536 then none
          else if 1114111 < cp then none
          else (utf8_decode rest2).map (fun cs => Char.ofNat cp :: cs)
        else none
      | _ => none
    else none

/-- Characters of Python `\s` (ASCII part), the complement of `\S` in the
log pattern, and also the set stripped by `str.strip()`. -/
def isPyWs (c : Char) : Bool :=
  c = ' ' || c = '\t' || c = '\n' || c = '\r' || c = '\x0b' || c = '\x0c'

/-- Character class `\S` of the log pattern. -/
def notSpace (c : Char) : Bool := !isPyWs c

/-- First `some` produced by `f` along the list — the backtracking search
order of the regex engine over one group's candidate splits. -/
def firstSome (f : α → Option β) : List α → Option β
  | [] => none
  | a :: as =>
    match f a with
    | some b => some b
    | none => firstSome f as

/-- Candidate (match, rest) splits for a greedy `X+` group: nonempty runs
of class-`p` characters, longest first. -/
def greedySplits (p : Char → Bool) (cs : List Char) : List (List Char × List Char) :=
  ((List.range (cs.takeWhile p).length).reverse).map
    (fun i => (cs.take (i + 1), cs.drop (i + 1)))

/-- Candidate (match, rest) splits for a lazy `.*?` group: shortest first,
never crossing a newline (`.` without DOTALL). -/
def lazySplits (cs : List Char) : List (List Char × List Char) :=
  (List.range ((cs.takeWhile (fun c => c ≠ '\n')).length + 1)).map
    (fun i => (cs.take i, cs.drop i))

/-- Sequence a greedy group with the rest of the pattern. -/
def seqGreedy (p : Char → Bool) (cs : List Char)
    (k : List Char → List Char → Option α) : Option α :=
  firstSome (fun pr => k pr.1 pr.2) (greedySplits p cs)

/-- Sequence a lazy group with the rest of the pattern. -/
def seqLazy (cs : List Char) (k : List Char → List Char → Option α) : Option α :=
  firstSome (fun pr => k pr.1 pr.2) (lazySplits cs)

/-- Sequence a literal with the rest of the pattern. -/
def seqLit (lit cs : List Char) (k : List Char → Option α) : Option α :=
  (litDrop lit cs).bind k

/-- The nine capture groups of the combined-log pattern, as matched text. -/
structure NginxGroups where
  remote_addr : String
  time_local : String
  method : String
  path : String
  protocol : String
  statusDigits : String
  bodyDigits : String
  referer : String
  user_agent : String
deriving DecidableEq

/-- Embedding of `re.match` with the source pattern
`(\S+) - - \[(.*?)\] "(\S+) (\S+) (\S+)" (\d+) (\d+) "(.*?)" "(.*?)"`:
anchored at the start, not required to consume the whole line, pieces
tried in the engine's backtracking order (greedy groups longest first,
lazy groups shortest first). -/
def nginxMatch (line : String) : Option NginxGroups :=
  seqGreedy notSpace line.data (fun g1 r =>
  seqLit (" - - [".data) r (fun r =>
  seqLazy r (fun g2 r =>
  seqLit ("] \"".data) r (fun r =>
  seqGreedy notSpace r (fun g3 r =>
  seqLit [' '] r (fun r =>
  seqGreedy notSpace r (fun g4 r =>
  seqLit [' '] r (fun r =>
  seqGreedy notSpace r (fun g5 r =>
  seqLit ("\" ".data) r (fun r =>
  seqGreedy Char.isDigit r (fun g6 r =>
  seqLit [' '] r (fun r =>
  seqGreedy Char.isDigit r (fun g7 r =>
  seqLit (" \"".data) r (fun r =>
  seqLazy r (fun g8 r =>
  seqLit ("\" \"".data) r (fun r =>
  seqLazy r (fun g9 r =>
  seqLit ['"'] r (fun _ =>
  some ⟨String.mk g1, String.mk g2, String.mk g3, String.mk g4, String.mk g5,
        String.mk g6, String.mk g7, String.mk g8, String.mk g9⟩))))))))))))))))))

/-- Numeric value of a matched `\d+` group, the effect of Python `int()`
on a run of decimal digits. -/
def digitsToNat (s : String) : Nat := digitsVal s.data

/-- ParsedLine built from a regex match (source lines 271-281): `status`
and `body_bytes_sent` via `int()`, `http_referer` emptied when the
matched group is exactly a dash. -/
def groupsToJson (g : NginxGroups) : Json :=
  Json.obj
    [("remote_addr", Json.str g.remote_addr),
     ("time_local", Json.str g.time_local),
     ("method", Json.str g.method),
     ("path", Json.str g.path),
     ("protocol", Json.str g.protocol),
     ("status", Json.num (Int.ofNat (digitsToNat g.statusDigits))),
     ("body_bytes_sent", Json.num (Int.ofNat (digitsToNat g.bodyDigits))),
     ("http_referer", Json.str (if g.referer = "-" then "" else g.referer)),
     ("user_agent", Json.str g.user_agent)]

/-- Test `log_line.strip().startswith(chr(123))` of source line 257. -/
def startsWithBrace (s : String) : Bool :=
  (s.data.dropWhile isPyWs).head? == some '\x7b'

/-- Embedding of `parse_nginx_log` on a string argument: JSON-first when
the stripped line opens a brace (JSON errors swallowed), then the
combined-format regex, else `None`. -/
def parse_nginx_log_str (s : String) : Option Json :=
  if startsWithBrace s then
    match json_loads s with
    | some j => some j
    | none => (nginxMatch s).map groupsToJson
  else (nginxMatch s).map groupsToJson

/-- Embedding of `parse_nginx_log`: non-string arguments return `None`
(source line 251). -/
def parse_nginx_log : Json → Option Json
  | Json.str s => parse_nginx_log_str s
  | _ => none

/-- Python exception classes raised by the modelled code paths. -/
inductive PyError where
  | attributeError : PyError
  | keyError : PyError
  | typeError : PyError
  | binasciiError : PyError
  | unicodeDecodeError : PyError
  | jsonDecodeError : PyError
deriving DecidableEq

/-- Severity tier of one processed record: `serverError` is the 5xx
`logger.error` branch, `clientError` the 4xx `logger.warning` branch,
`normal` means neither fired. -/
inductive Tier where
  | normal : Tier
  | clientError : Tier
  | serverError : Tier
deriving DecidableEq

/-- One emitted observability event: the processed record and its tier. -/
structure Emit where
  record : Json
  tier : Tier

/-- Body of the HTTP JSON response: the success summary (with its
`source` field) or the error description built from the caught
exception. -/
inductive RespBody where
  | success (source : String) : RespBody
  | failure (e : PyError) : RespBody
deriving DecidableEq

/-- HTTP-facing result of one request: status code plus response body. -/
structure HttpResp where
  code : Nat
  body : RespBody
deriving DecidableEq

/-- Python `d.get(k)`: `AttributeError` unless `d` is a dict, `None`
(here `Option.none`) when the key is missing. -/
def pyGetOpt (j : Json) (k : String) : Except PyError (Option Json) :=
  match j with
  | Json.obj _ => Except.ok (jsonFind j k)
  | _ => Except.error PyError.attributeError

/-- Python `d.get(k, default)`. -/
def pyGetD (j : Json) (k : String) (d : Json) : Except PyError Json :=
  match j with
  | Json.obj _ => Except.ok ((jsonFind j k).getD d)
  | _ => Except.error PyError.attributeError

/-- Python `d[k]` on a JSON value. -/
def pySubscript (j : Json) (k : String) : Except PyError Json :=
  match j with
  | Json.obj _ =>
    match jsonFind j k with
    | some v => Except.ok v
    | none => Except.error PyError.keyError
  | _ => Except.error PyError.typeError

/-- Python `x >= n` for a JSON value against an int: numbers and bools
compare, anything else raises `TypeError`. -/
def pyGe (j : Json) (n : Int) : Except PyError Bool :=
  match j with
  | Json.num m => Except.ok (decide (n ≤ m))
  | Json.bool b => Except.ok (decide (n ≤ (if b then 1 else 0)))
  | _ => Except.error PyError.typeError

/-- Normalization of a bus-kind entry (source lines 196-210): payload from
`jsonPayload or textPayload`, labels from `resource.labels`. -/
def normalize_pubsub (log_entry : Json) (ts : String) : Except PyError Json :=
  Except.bind (pyGetOpt log_entry "jsonPayload") (fun jp =>
  Except.bind
    (if (jp.getD Json.null).truthy then Except.ok (jp.getD Json.null)
     else pyGetD log_entry "textPayload" (Json.str "")) (fun payload =>
  Except.bind (pyGetD log_entry "resource" (Json.obj [])) (fun resource =>
  Except.bind (pyGetD resource "labels" (Json.obj [])) (fun labels =>
  Except.bind (pyGetOpt labels "cluster_name") (fun cluster =>
  Except.bind (pyGetOpt labels "namespace_name") (fun ns =>
  Except.bind (pyGetOpt labels "pod_name") (fun pod =>
  Except.bind (pyGetOpt labels "container_name") (fun container =>
  Except.ok (Json.obj
    [("timestamp", Json.str ts),
     ("source", Json.str "pubsub"),
     ("cluster", cluster.getD Json.null),
     ("namespace", ns.getD Json.null),
     ("pod", pod.getD Json.null),
     ("container", container.getD Json.null),
     ("payload", payload)])))))))))

/-- Normalization of a direct-kind entry (source lines 212-221). -/
def normalize_direct (log_entry : Json) (ts : String) : Except PyError Json :=
  Except.bind (pyGetOpt log_entry "pod") (fun pod =>
  Except.bind (pyGetOpt log_entry "namespace") (fun ns =>
  Except.bind (pyGetOpt log_entry "message") (fun msg =>
  Except.ok (Json.obj
    [("timestamp", Json.str ts),
     ("source", Json.str "direct"),
     ("pod", pod.getD Json.null),
     ("namespace", ns.getD Json.null),
     ("message", msg.getD Json.null),
     ("raw_data", log_entry)]))))

/-- Status classification block of `process_log_entry` (source lines
234-241) applied to `processed_log.get('parsed_nginx', dict())`. -/
def classify_nginx (nginx_data : Json) : Except PyError Tier :=
  match nginx_data with
  | Json.obj _ =>
    Except.bind (pyGe ((jsonFind nginx_data "status").getD (Json.num 0)) 500) (fun ge500 =>
      if ge500 then Except.ok Tier.serverError
      else
        Except.bind (pyGe ((jsonFind nginx_data "status").getD (Json.num 0)) 400) (fun ge400 =>
          if ge400 then Except.ok Tier.clientError else Except.ok Tier.normal))
  | _ => Except.ok Tier.normal

/-- Parsing step of `process_log_entry` (source lines 225-232):
`log_text = processed_log.get('message') or processed_log.get('payload')`,
parse it when it is a string, and store a truthy parse result under
`parsed_nginx`. -/
def attach_parsed (processed_log : Json) : Json :=
  let msg := (jsonFind processed_log "message").getD Json.null
  let log_text := if msg.truthy then msg else (jsonFind processed_log "payload").getD Json.null
  match log_text with
  | Json.str s =>
    match parse_nginx_log_str s with
    | some p => if p.truthy then jsonInsert processed_log "parsed_nginx" p else processed_log
    | none => processed_log
  | _ => processed_log

/-- Body of `process_log_entry` before its catch-all handler: normalize by
source kind, try to parse the candidate text, classify the status.  The
timestamp `ts` models `datetime.utcnow().isoformat()`. -/
def process_log_entry_core (log_entry : Json) (source : String) (ts : String) :
    Except PyError Emit :=
  Except.bind
    (if source = "pubsub" then normalize_pubsub log_entry ts else normalize_direct log_entry ts)
    (fun processed_log =>
      let record := attach_parsed processed_log
      Except.bind (classify_nginx ((jsonFind record "parsed_nginx").getD (Json.obj [])))
        (fun tier => Except.ok ⟨record, tier⟩))

/-- Embedding of `process_log_entry` (source lines 189-246): the trailing
`except Exception` swallows every internal failure, so a faulting entry
produces no event and no exception escapes. -/
def process_log_entry (log_entry : Json) (source : String) (ts : String) : Option Emit :=
  (process_log_entry_core log_entry source ts).toOption

/-- Decode chain of `handle_pubsub_format` (source lines 137-147):
subscript to the payload, base64-decode, UTF-8 decode, JSON parse. -/
def pubsubDecode (data : Json) : Except PyError Json :=
  Except.bind (pySubscript data "message") (fun message =>
  Except.bind (pySubscript message "data") (fun base64_data =>
  Except.bind
    (match base64_data with
     | Json.str s =>
       match b64decode s with
       | some bs => Except.ok bs
       | none => Except.error PyError.binasciiError
     | _ => Except.error PyError.typeError) (fun bytes =>
  Except.bind
    (match utf8_decode bytes with
     | some cs => Except.ok (String.mk cs)
     | none => Except.error PyError.unicodeDecodeError) (fun decoded_data =>
  match json_loads decoded_data with
  | some j => Except.ok j
  | none => Except.error PyError.jsonDecodeError))))

/-- Embedding of `handle_pubsub_format` (source lines 133-162): any
exception inside the `try` yields the 500 response built at line 162,
otherwise the entry is processed and the 200 summary returned. -/
def handle_pubsub_format (data : Json) (ts : String) : HttpResp × List (Option Emit) :=
  match pubsubDecode data with
  | Except.ok log_entry =>
    (⟨200, RespBody.success "pubsub"⟩, [process_log_entry log_entry "pubsub" ts])
  | Except.error e => (⟨500, RespBody.failure e⟩, [])

/-- Embedding of `handle_direct_format` (source lines 164-187): a list
body is processed element by element, anything else as a single entry;
`process_log_entry` cannot raise, so the 200 summary is always built. -/
def handle_direct_format (data : Json) (ts : String) : HttpResp × List (Option Emit) :=
  match data with
  | Json.arr xs =>
    (⟨200, RespBody.success "direct"⟩, xs.map (fun x => process_log_entry x "direct" ts))
  | _ => (⟨200, RespBody.success "direct"⟩, [process_log_entry data "direct" ts])

/-- Detection rule of source line 122: a dict whose `message` key holds a
dict containing key `data`. -/
def isPubsubFormat (data : Json) : Bool :=
  match data with
  | Json.obj _ =>
    match jsonFind data "message" with
    | some (Json.obj mkvs) => (jsonFind (Json.obj mkvs) "data").isSome
    | _ => false
  | _ => false

/-- Routing stage of `handle_nginx_log` after the body has been parsed as
JSON (source lines 121-127). -/
def handle_nginx_log_body (data : Json) (ts : String) : HttpResp × List (Option Emit) :=
  if isPubsubFormat data then handle_pubsub_format data ts else handle_direct_format data ts

/-- The inner entries a body denotes on the direct path: list elements for
a sequence, the body itself otherwise. -/
def directEntries : Json → List Json
  | Json.arr xs => xs
  | j => [j]

/-- Spec-side restatement of the detection rule of spec section 4.1: a
mapping containing key `message` whose value is itself a mapping
containing key `data`. -/
def busShapeSpec (body : Json) : Prop :=
  ∃ kvs m, body = Json.obj kvs ∧ jsonFind body "message" = some m ∧
    (∃ mkvs, m = Json.obj mkvs) ∧ (jsonFind m "data").isSome = true

/-- Spec-side severity thresholds of spec section 3: at least 500 is a
server error, at least 400 a client error, anything else normal. -/
def statusTier (n : Int) : Tier :=
  if 500 ≤ n then Tier.serverError
  else if 400 ≤ n then Tier.clientError
  else Tier.normal

/-- Bus payload selection as the amended claim states it: `jsonPayload`
when present and truthy, else `textPayload` when present, else the empty
string. -/
def busPayloadSpec (entry : Json) : Json :=
  match jsonFind entry "jsonPayload" with
  | some jp => if jp.truthy then jp else (jsonFind entry "textPayload").getD (Json.str "")
  | none => (jsonFind entry "textPayload").getD (Json.str "")

/-- The labels mapping `entry.resource.labels` with each level defaulting
to an empty mapping. -/
def busLabels (entry : Json) : Json :=
  (jsonFind ((jsonFind entry "resource").getD (Json.obj [])) "labels").getD (Json.obj [])

/-- A swallowed exception is exactly an `Except.error` before `toOption`. -/
theorem toOption_eq_some (x : Except PyError Emit) (a : Emit)
    (h : x.toOption = some a) : x = Except.ok a := by
  cases x with
  | ok b => simp [Except.toOption] at h; rw [h]
  | error e => simp [Except.toOption] at h

/-- A successful `process_log_entry_core` run classified its own record. -/
theorem core_classifies (entry : Json) (source ts : String) (em : Emit)
    (h : process_log_entry_core entry source ts = Except.ok em) :
    classify_nginx ((jsonFind em.record "parsed_nginx").getD (Json.obj [])) =
      Except.ok em.tier := by
  unfold process_log_entry_core at h
  cases hnorm : (if source = "pubsub" then normalize_pubsub entry ts else normalize_direct entry ts) with
  | error e => rw [hnorm] at h; simp [Bind.bind, Except.bind] at h
  | ok D =>
    rw [hnorm] at h
    simp only [Bind.bind, Except.bind] at h
    cases hcl : classify_nginx ((jsonFind (attach_parsed D) "parsed_nginx").getD (Json.obj [])) with
    | error e => rw [hcl] at h; simp at h
    | ok t =>
      rw [hcl] at h
      simp only [pure, Except.pure, Except.ok.injEq] at h
      rw [← h]
      exact hcl

/-- Claim C1 (amended): for every bus envelope whose payload fails base64,
UTF-8 or JSON decoding, the pipeline fails with the decode exception and
the HTTP-facing result is the 500-class (server error) response built
from that exception — not a 400-class response as originally claimed. -/
theorem C1_decode_failure_server_error (data : Json) (ts : String) (e : PyError)
    (hb : isPubsubFormat data = true) (hd : pubsubDecode data = Except.error e) :
    handle_nginx_log_body data ts = (⟨500, RespBody.failure e⟩, []) := by
  simp [handle_nginx_log_body, hb, handle_pubsub_format, hd]

/-- Claim C1 witness: the spec's own malformed-base64 scenario, pushed
through the theorem. -/
theorem C1_witness :
    handle_nginx_log_body
        (Json.obj [("message", Json.obj [("data", Json.str "!!!not-base64!!!")])]) "T" =
      (⟨500, RespBody.failure PyError.binasciiError⟩, []) :=
  C1_decode_failure_server_error _ "T" PyError.binasciiError rfl rfl

/-- Claim C1 counterexample: the bus envelope with non-base64 payload
fails to decode, yet the HTTP result is 500, not a 400-class response. -/
theorem C1_counterexample :
    pubsubDecode (Json.obj [("message", Json.obj [("data", Json.str "!!!not-base64!!!")])]) =
      Except.error PyError.binasciiError ∧
    (handle_nginx_log_body
        (Json.obj [("message", Json.obj [("data", Json.str "!!!not-base64!!!")])]) "T").1.code = 500 ∧
    ¬(400 ≤ (handle_nginx_log_body
        (Json.obj [("message", Json.obj [("data", Json.str "!!!not-base64!!!")])]) "T").1.code ∧
      (handle_nginx_log_body
        (Json.obj [("message", Json.obj [("data", Json.str "!!!not-base64!!!")])]) "T").1.code < 500) :=
  ⟨rfl, rfl, by decide⟩

/-- Claim C3 (amended): for every line whose stripped form begins with an
opening brace and which parses as JSON, the parser returns that decoded
JSON verbatim, taking priority over the combined-format grammar.  (As
originally stated — for every syntactically valid JSON line — the claim
fails: see the counterexample, a valid JSON array line that is not
returned.) -/
theorem C3_json_first_verbatim (s : String) (j : Json)
    (hb : startsWithBrace s = true) (hj : json_loads s = some j) :
    parse_nginx_log_str s = some j := by
  simp [parse_nginx_log_str, hb, hj]

/-- Claim C3 witness: a brace-led line that is valid JSON and also matches
the grammar; the JSON result wins. -/
theorem C3_witness :
    (nginxMatch "\x7b\"k - - [t] \":\"A B C\\\" 200 5 \",\" \":\"u\"\x7d").isSome = true ∧
    parse_nginx_log_str "\x7b\"k - - [t] \":\"A B C\\\" 200 5 \",\" \":\"u\"\x7d" =
      some (Json.obj [("k - - [t] ", Json.str "A B C\" 200 5 "), (" ", Json.str "u")]) :=
  ⟨rfl, C3_json_first_verbatim _ _ rfl rfl⟩

/-- Claim C3 counterexample: a syntactically valid JSON line that does not
begin with a brace is not returned verbatim — the parser returns `none`. -/
theorem C3_counterexample :
    json_loads "[1, 2]" = some (Json.arr [Json.num 1, Json.num 2]) ∧
    parse_nginx_log_str "[1, 2]" = none :=
  ⟨rfl, rfl⟩

/-- Claim C8: a Direct sequence body is processed element by element, in
order, one outcome per element, and each element's outcome depends only
on that element — a faulting element cannot abort its siblings. -/
theorem C8_direct_list_fanout (ts : String) (xs : List Json) :
    (handle_direct_format (Json.arr xs) ts).1 = ⟨200, RespBody.success "direct"⟩ ∧
    (handle_direct_format (Json.arr xs) ts).2.length = xs.length ∧
    ∀ pre x post, xs = pre ++ x :: post →
      (handle_direct_format (Json.arr xs) ts).2 =
        pre.map (fun e2 => process_log_entry e2 "direct" ts) ++
          process_log_entry x "direct" ts ::
            post.map (fun e2 => process_log_entry e2 "direct" ts) := by
  refine ⟨rfl, by simp [handle_direct_format], ?_⟩
  intro pre x post h
  subst h
  simp [handle_direct_format]

/-- Claim C8 witness: a two-element list whose second element faults (a
non-dict entry); the first element is still processed and both slots are
present. -/
theorem C8_witness :
    process_log_entry (Json.num 5) "direct" "T" = none ∧
    (handle_direct_format (Json.arr [Json.obj [("message", Json.str "hey")], Json.num 5]) "T").2 =
      [Json.obj [("message", Json.str "hey")]].map (fun e2 => process_log_entry e2 "direct" "T") ++
        process_log_entry (Json.num 5) "direct" "T" ::
          ([] : List Json).map (fun e2 => process_log_entry e2 "direct" "T") :=
  ⟨rfl, (C8_direct_list_fanout "T" _).2.2 [Json.obj [("message", Json.str "hey")]] (Json.num 5) [] rfl⟩

/-- Claim C9 (amended): a body that is not bus-shaped — including one with
no usable fields at all — is not rejected: no envelope-format error path
exists, the body is processed on the direct path and the HTTP-facing
result is the 200 success response. -/
theorem C9_no_envelope_error (data : Json) (ts : String)
    (h : isPubsubFormat data = false) :
    (handle_nginx_log_body data ts).1 = ⟨200, RespBody.success "direct"⟩ := by
  rw [handle_nginx_log_body, if_neg (by simp [h])]
  cases data <;> rfl

/-- Claim C9 witness: a scalar body, processed on the direct path. -/
theorem C9_witness :
    (handle_nginx_log_body (Json.num 7) "T").1 = ⟨200, RespBody.success "direct"⟩ :=
  C9_no_envelope_error (Json.num 7) "T" rfl

/-- Claim C9 counterexample: the empty-object body — missing `message` and
every usable field — yields the 200 success response, not the claimed
client-error rejection. -/
theorem C9_counterexample :
    isPubsubFormat (Json.obj []) = false ∧
    (handle_nginx_log_body (Json.obj []) "T").1 = ⟨200, RespBody.success "direct"⟩ ∧
    ¬(400 ≤ (handle_nginx_log_body (Json.obj []) "T").1.code ∧
      (handle_nginx_log_body (Json.obj []) "T").1.code < 500) :=
  ⟨rfl, rfl, by decide⟩

/-- Claim C10: once the envelope stage succeeds — any non-bus body, or a
bus body whose payload decodes — every internal failure of per-entry
processing is swallowed (`process_log_entry` is total, returning `none`
for a faulting entry) and the HTTP-facing result is the 200 success
response no matter what the entries contain. -/
theorem C10_envelope_success_yields_200 (data : Json) (ts : String) :
    (isPubsubFormat data = false →
      handle_nginx_log_body data ts = handle_direct_format data ts ∧
      (handle_direct_format data ts).1 = ⟨200, RespBody.success "direct"⟩) ∧
    (∀ entry, isPubsubFormat data = true → pubsubDecode data = Except.ok entry →
      handle_nginx_log_body data ts =
        (⟨200, RespBody.success "pubsub"⟩, [process_log_entry entry "pubsub" ts])) := by
  constructor
  · intro h
    refine ⟨by rw [handle_nginx_log_body, if_neg (by simp [h])], ?_⟩
    cases data <;> rfl
  · intro entry h hd
    simp [handle_nginx_log_body, h, handle_pubsub_format, hd]

/-- Claim C10 witness: a well-formed bus envelope (base64 of the empty
JSON object) reaches the 200 success response. -/
theorem C10_witness :
    handle_nginx_log_body (Json.obj [("message", Json.obj [("data", Json.str "e30=")])]) "T" =
      (⟨200, RespBody.success "pubsub"⟩, [process_log_entry (Json.obj []) "pubsub" "T"]) :=
  (C10_envelope_success_yields_200 _ "T").2 (Json.obj []) rfl rfl

/-- Claim C2: a body is classified as Bus exactly when it is a mapping
containing key `message` whose value is itself a mapping containing key
`data`; every other body is classified as Direct and its inner entries —
the body itself, or each element of a sequence body — are processed
directly. -/
theorem C2_envelope_classification :
    (∀ body : Json, isPubsubFormat body = true ↔ busShapeSpec body) ∧
    (∀ body : Json, ∀ ts, isPubsubFormat body = false →
      handle_nginx_log_body body ts = handle_direct_format body ts ∧
      (handle_direct_format body ts).2 =
        (directEntries body).map (fun e2 => process_log_entry e2 "direct" ts)) ∧
    (∀ body : Json, ∀ ts, isPubsubFormat body = true →
      handle_nginx_log_body body ts = handle_pubsub_format body ts) := by
  refine ⟨?_, ?_, ?_⟩
  · intro body
    constructor
    · intro h
      cases body with
      | obj kvs =>
        cases hm : jsonFind (Json.obj kvs) "message" with
        | none => unfold isPubsubFormat at h; rw [hm] at h; simp at h
        | some m =>
          cases m with
          | obj mkvs =>
            unfold isPubsubFormat at h; rw [hm] at h
            exact ⟨kvs, Json.obj mkvs, rfl, hm, ⟨mkvs, rfl⟩, h⟩
          | null => unfold isPubsubFormat at h; rw [hm] at h; simp at h
          | bool b => unfold isPubsubFormat at h; rw [hm] at h; simp at h
          | num n => unfold isPubsubFormat at h; rw [hm] at h; simp at h
          | str s => unfold isPubsubFormat at h; rw [hm] at h; simp at h
          | arr xs => unfold isPubsubFormat at h; rw [hm] at h; simp at h
      | null => simp [isPubsubFormat] at h
      | bool b => simp [isPubsubFormat] at h
      | num n => simp [isPubsubFormat] at h
      | str s => simp [isPubsubFormat] at h
      | arr xs => simp [isPubsubFormat] at h
    · rintro ⟨kvs, m, rfl, hm, ⟨mkvs, rfl⟩, hd⟩
      unfold isPubsubFormat
      rw [hm]
      exact hd
  · intro body ts h
    refine ⟨by rw [handle_nginx_log_body, if_neg (by simp [h])], ?_⟩
    cases body <;> rfl
  · intro body ts h
    rw [handle_nginx_log_body, if_pos (by simp [h])]

/-- Claim C2 witness: a concrete bus-shaped body satisfies the spec-side
shape predicate, and a concrete scalar body routes to the direct path. -/
theorem C2_witness :
    busShapeSpec (Json.obj [("message", Json.obj [("data", Json.str "e30=")])]) ∧
    handle_nginx_log_body (Json.num 3) "T" = handle_direct_format (Json.num 3) "T" :=
  ⟨(C2_envelope_classification.1 _).mp rfl,
   (C2_envelope_classification.2.1 (Json.num 3) "T" rfl).1⟩

/-- Claim C4 (amended): for every line matching the combined grammar on
which the JSON-first strategy does not succeed, parse returns the
grammar-built ParsedLine; its `status` and `body_bytes_sent` are the
integer values of the digit groups, and `http_referer` is the empty
string iff the matched referer text was exactly a dash or itself empty,
and otherwise the matched text verbatim.  (The original claim fails both
for an empty matched referer and for grammar-matching lines that are
also valid brace-led JSON — see the counterexample.) -/
theorem C4_grammar_fields (s : String) (g : NginxGroups)
    (hm : nginxMatch s = some g)
    (hj : startsWithBrace s = false ∨ json_loads s = none) :
    parse_nginx_log_str s = some (groupsToJson g) ∧
    jsonFind (groupsToJson g) "status" =
      some (Json.num (Int.ofNat (digitsToNat g.statusDigits))) ∧
    jsonFind (groupsToJson g) "body_bytes_sent" =
      some (Json.num (Int.ofNat (digitsToNat g.bodyDigits))) ∧
    (jsonFind (groupsToJson g) "http_referer" = some (Json.str "") ↔
      (g.referer = "-" ∨ g.referer = "")) ∧
    (g.referer ≠ "-" →
      jsonFind (groupsToJson g) "http_referer" = some (Json.str g.referer)) := by
  have href : jsonFind (groupsToJson g) "http_referer" =
      some (Json.str (if g.referer = "-" then "" else g.referer)) := rfl
  refine ⟨?_, rfl, rfl, ?_, ?_⟩
  · rcases hj with h | h
    · simp [parse_nginx_log_str, h, hm]
    · cases hb : startsWithBrace s <;> simp [parse_nginx_log_str, hb, h, hm]
  · rw [href]
    by_cases h : g.referer = "-" <;> simp [h]
  · intro h
    rw [href, if_neg h]

/-- Claim C4 witness: a classic combined-format line with dash referer. -/
theorem C4_witness :
    parse_nginx_log_str "1.2.3.4 - - [10/Oct/2023] \"GET / HTTP/1.1\" 404 7 \"-\" \"curl\"" =
      some (groupsToJson ⟨"1.2.3.4", "10/Oct/2023", "GET", "/", "HTTP/1.1", "404", "7", "-", "curl"⟩) :=
  (C4_grammar_fields "1.2.3.4 - - [10/Oct/2023] \"GET / HTTP/1.1\" 404 7 \"-\" \"curl\""
    ⟨"1.2.3.4", "10/Oct/2023", "GET", "/", "HTTP/1.1", "404", "7", "-", "curl"⟩
    rfl (Or.inl rfl)).1

/-- Claim C4 counterexample: (i) a line whose matched referer group is
empty gets `http_referer` equal to the empty string although the referer
text was not a dash; (ii) a line that matches the grammar but is also
valid brace-led JSON is returned as that JSON, whose `status` field is
absent — not an integer. -/
theorem C4_counterexample :
    (nginxMatch "7.7.7.7 - - [t] \"GET / HTTP/1.1\" 200 5 \"\" \"ua\"").map NginxGroups.referer =
      some "" ∧
    (parse_nginx_log_str "7.7.7.7 - - [t] \"GET / HTTP/1.1\" 200 5 \"\" \"ua\"").bind
      (fun p => jsonFind p "http_referer") = some (Json.str "") ∧
    "" ≠ "-" ∧
    (nginxMatch "\x7b\"q - - [t] \":\"A B C\\\" 200 5 \",\" \":\"u\"\x7d").isSome = true ∧
    parse_nginx_log_str "\x7b\"q - - [t] \":\"A B C\\\" 200 5 \",\" \":\"u\"\x7d" =
      some (Json.obj [("q - - [t] ", Json.str "A B C\" 200 5 "), (" ", Json.str "u")]) ∧
    (parse_nginx_log_str "\x7b\"q - - [t] \":\"A B C\\\" 200 5 \",\" \":\"u\"\x7d").bind
      (fun p => jsonFind p "status") = none :=
  ⟨rfl, rfl, by decide, rfl, rfl, rfl⟩

/-- Claim C5 (amended): the tier is derived solely from the parsed
`status` value when that value is a number — at least 500 is ServerError,
at least 400 (below 500) is ClientError, any other number is Normal — and
an absent status (including an absent parsed access log) is treated as 0,
giving Normal.  A non-numeric status value does not give Normal: the
comparison raises a (locally caught) TypeError — see the
counterexample. -/
theorem C5_severity_thresholds :
    (∀ kvs : List (String × Json), ∀ n : Int,
      jsonFind (Json.obj kvs) "status" = some (Json.num n) →
      classify_nginx (Json.obj kvs) = Except.ok (statusTier n)) ∧
    (∀ kvs : List (String × Json), jsonFind (Json.obj kvs) "status" = none →
      classify_nginx (Json.obj kvs) = Except.ok Tier.normal) ∧
    (∀ entry : Json, ∀ ts : String, ∀ em : Emit,
      process_log_entry entry "direct" ts = some em →
      jsonFind em.record "parsed_nginx" = none → em.tier = Tier.normal) := by
  refine ⟨?_, ?_, ?_⟩
  · intro kvs n h
    by_cases h5 : (500:Int) ≤ n
    · simp [classify_nginx, h, pyGe, Except.bind, statusTier, h5]
    · by_cases h4 : (400:Int) ≤ n
      · simp [classify_nginx, h, pyGe, Except.bind, statusTier, h5, h4]
      · simp [classify_nginx, h, pyGe, Except.bind, statusTier, h5, h4]
  · intro kvs h
    simp [classify_nginx, h, pyGe, Except.bind]
  · intro entry ts em hp hn
    unfold process_log_entry at hp
    have hcore := toOption_eq_some _ _ hp
    have h := core_classifies entry "direct" ts em hcore
    rw [hn] at h
    have h2 : classify_nginx ((none : Option Json).getD (Json.obj [])) = Except.ok Tier.normal := rfl
    rw [h2] at h
    exact (Except.ok.inj h).symm

/-- Claim C5 witness: a parsed status of 503 classifies to the 500
threshold tier; a record without a parsed access log classifies Normal. -/
theorem C5_witness :
    jsonFind (Json.obj [("status", Json.num 503)]) "status" = some (Json.num 503) ∧
    classify_nginx (Json.obj [("status", Json.num 503)]) = Except.ok (statusTier 503) ∧
    classify_nginx (Json.obj [("status", Json.num 200)]) = Except.ok (statusTier 200) :=
  ⟨rfl, C5_severity_thresholds.1 [("status", Json.num 503)] 503 rfl,
   C5_severity_thresholds.1 [("status", Json.num 200)] 200 rfl⟩

/-- Claim C5 counterexample: a non-numeric status (reachable through a
JSON-strategy line) raises TypeError instead of yielding the Normal tier,
and the whole entry is swallowed with no emitted event. -/
theorem C5_counterexample :
    classify_nginx (Json.obj [("status", Json.str "boom")]) = Except.error PyError.typeError ∧
    (Except.error PyError.typeError : Except PyError Tier) ≠ Except.ok Tier.normal ∧
    process_log_entry (Json.obj [("message", Json.str "\x7b\"status\": \"boom\"\x7d")])
      "direct" "T" = none :=
  ⟨rfl, fun h => Except.noConfusion h, rfl⟩

/-- Claim C6 (amended): on every successful bus-kind normalization, the
record's payload is `entry.jsonPayload` when that key is present with a
truthy value, else `entry.textPayload` when present, else the empty
string; and cluster, namespace, pod, container come from the
`cluster_name`/`namespace_name`/`pod_name`/`container_name` keys of
`entry.resource.labels`, each defaulting to absent (`None`).  (As
originally claimed — `jsonPayload` taken whenever present — the claim
fails when `jsonPayload` is present but falsy: Python's `or` falls
through, see the counterexample.) -/
theorem C6_bus_payload_and_labels (kvs : List (String × Json)) (ts : String) (r : Json)
    (h : normalize_pubsub (Json.obj kvs) ts = Except.ok r) :
    jsonFind r "payload" = some (busPayloadSpec (Json.obj kvs)) ∧
    jsonFind r "cluster" =
      some ((jsonFind (busLabels (Json.obj kvs)) "cluster_name").getD Json.null) ∧
    jsonFind r "namespace" =
      some ((jsonFind (busLabels (Json.obj kvs)) "namespace_name").getD Json.null) ∧
    jsonFind r "pod" =
      some ((jsonFind (busLabels (Json.obj kvs)) "pod_name").getD Json.null) ∧
    jsonFind r "container" =
      some ((jsonFind (busLabels (Json.obj kvs)) "container_name").getD Json.null) := by
  have hpay : (if ((jsonFind (Json.obj kvs) "jsonPayload").getD Json.null).truthy
        then (Except.ok ((jsonFind (Json.obj kvs) "jsonPayload").getD Json.null) :
          Except PyError Json)
        else Except.ok ((jsonFind (Json.obj kvs) "textPayload").getD (Json.str ""))) =
      Except.ok (busPayloadSpec (Json.obj kvs)) := by
    unfold busPayloadSpec
    cases hjp : jsonFind (Json.obj kvs) "jsonPayload" with
    | none => simp [Json.truthy, Option.getD]
    | some jp =>
      simp only [Option.getD]
      by_cases ht : jp.truthy <;> simp [ht]
  unfold normalize_pubsub at h
  simp only [pyGetOpt, pyGetD, Except.bind] at h
  rw [hpay] at h
  simp only [Except.bind] at h
  rcases hR : (jsonFind (Json.obj kvs) "resource").getD (Json.obj []) with _ | b | n | s | xs | rkvs <;>
    rw [hR] at h <;>
    simp only [Except.bind] at h
  case null | bool | num | str | arr => exact absurd h (by simp)
  case obj =>
    have hbl : busLabels (Json.obj kvs) =
        (jsonFind (Json.obj rkvs) "labels").getD (Json.obj []) := by
      unfold busLabels
      rw [hR]
    rcases hL : (jsonFind (Json.obj rkvs) "labels").getD (Json.obj []) with _ | b | n | s | xs | lkvs <;>
      rw [hL] at h <;>
      simp only [Except.bind] at h
    case null | bool | num | str | arr => exact absurd h (by simp)
    case obj =>
      rw [hbl, hL]
      rw [← Except.ok.inj h]
      exact ⟨rfl, rfl, rfl, rfl, rfl⟩

/-- Claim C6 witness: a bus entry with only `textPayload` and a
`pod_name` label maps to payload `hi`, pod `p1`, the rest absent. -/
theorem C6_witness :
    jsonFind (Json.obj
      [("timestamp", Json.str "T"), ("source", Json.str "pubsub"), ("cluster", Json.null),
       ("namespace", Json.null), ("pod", Json.str "p1"), ("container", Json.null),
       ("payload", Json.str "hi")]) "payload" =
      some (busPayloadSpec (Json.obj [("textPayload", Json.str "hi"),
        ("resource", Json.obj [("labels", Json.obj [("pod_name", Json.str "p1")])])])) :=
  (C6_bus_payload_and_labels
    [("textPayload", Json.str "hi"),
     ("resource", Json.obj [("labels", Json.obj [("pod_name", Json.str "p1")])])] "T"
    (Json.obj
      [("timestamp", Json.str "T"), ("source", Json.str "pubsub"), ("cluster", Json.null),
       ("namespace", Json.null), ("pod", Json.str "p1"), ("container", Json.null),
       ("payload", Json.str "hi")]) rfl).1

/-- Claim C6 counterexample: `jsonPayload` present but falsy (the number
0) is not used as the payload — `textPayload` wins instead. -/
theorem C6_counterexample :
    jsonFind (Json.obj [("jsonPayload", Json.num 0), ("textPayload", Json.str "hi")])
      "jsonPayload" = some (Json.num 0) ∧
    (normalize_pubsub (Json.obj [("jsonPayload", Json.num 0), ("textPayload", Json.str "hi")])
        "T").toOption.bind (fun r => jsonFind r "payload") = some (Json.str "hi") ∧
    Json.str "hi" ≠ Json.num 0 :=
  ⟨rfl, rfl, fun h => Json.noConfusion h⟩

/-- When the record's candidate text is absent, not a string, or fails
both parse strategies, the parsing step leaves the record unchanged. -/
theorem attach_parsed_id (pl : Json) (X : Json)
    (h1 : jsonFind pl "message" = some X)
    (h2 : jsonFind pl "payload" = none)
    (h3 : ∀ s, X = Json.str s → parse_nginx_log_str s = none) :
    attach_parsed pl = pl := by
  unfold attach_parsed
  rw [h1, h2]
  simp only [Option.getD]
  cases X with
  | str s =>
    by_cases hs : s = ""
    · rw [if_neg (by simp [Json.truthy, hs])]
    · rw [if_pos (by simp [Json.truthy, hs])]
      simp [h3 s rfl]
  | null => rw [if_neg (by simp [Json.truthy])]
  | bool b =>
    by_cases ht : (Json.bool b).truthy = true
    · rw [if_pos ht]
    · rw [if_neg ht]
  | num n =>
    by_cases ht : (Json.num n).truthy = true
    · rw [if_pos ht]
    · rw [if_neg ht]
  | arr xs =>
    by_cases ht : (Json.arr xs).truthy = true
    · rw [if_pos ht]
    · rw [if_neg ht]
  | obj kvs2 =>
    by_cases ht : (Json.obj kvs2).truthy = true
    · rw [if_pos ht]
    · rw [if_neg ht]

/-- A direct-kind dict entry whose candidate text cannot be parsed is
still processed into an emitted record with no `parsed_nginx` key and the
Normal tier. -/
theorem direct_emit_unparsed (kvs : List (String × Json)) (ts : String)
    (h3 : ∀ s, (jsonFind (Json.obj kvs) "message").getD Json.null = Json.str s →
      parse_nginx_log_str s = none) :
    ∃ em, process_log_entry (Json.obj kvs) "direct" ts = some em ∧
      jsonFind em.record "parsed_nginx" = none ∧ em.tier = Tier.normal := by
  refine ⟨⟨Json.obj
    [("timestamp", Json.str ts),
     ("source", Json.str "direct"),
     ("pod", (jsonFind (Json.obj kvs) "pod").getD Json.null),
     ("namespace", (jsonFind (Json.obj kvs) "namespace").getD Json.null),
     ("message", (jsonFind (Json.obj kvs) "message").getD Json.null),
     ("raw_data", Json.obj kvs)], Tier.normal⟩, ?_, rfl, rfl⟩
  have hA : attach_parsed (Json.obj
      [("timestamp", Json.str ts),
       ("source", Json.str "direct"),
       ("pod", (jsonFind (Json.obj kvs) "pod").getD Json.null),
       ("namespace", (jsonFind (Json.obj kvs) "namespace").getD Json.null),
       ("message", (jsonFind (Json.obj kvs) "message").getD Json.null),
       ("raw_data", Json.obj kvs)]) = Json.obj
      [("timestamp", Json.str ts),
       ("source", Json.str "direct"),
       ("pod", (jsonFind (Json.obj kvs) "pod").getD Json.null),
       ("namespace", (jsonFind (Json.obj kvs) "namespace").getD Json.null),
       ("message", (jsonFind (Json.obj kvs) "message").getD Json.null),
       ("raw_data", Json.obj kvs)] :=
    attach_parsed_id _ _ rfl rfl h3
  unfold process_log_entry process_log_entry_core
  rw [if_neg (by decide)]
  show (Except.bind (normalize_direct (Json.obj kvs) ts) _).toOption = _
  rw [show normalize_direct (Json.obj kvs) ts = Except.ok (Json.obj
      [("timestamp", Json.str ts),
       ("source", Json.str "direct"),
       ("pod", (jsonFind (Json.obj kvs) "pod").getD Json.null),
       ("namespace", (jsonFind (Json.obj kvs) "namespace").getD Json.null),
       ("message", (jsonFind (Json.obj kvs) "message").getD Json.null),
       ("raw_data", Json.obj kvs)]) from rfl]
  simp only [Except.bind]
  rw [hA]
  rfl

/-- Claim C7: a null or non-string candidate line parses to null; when
neither the JSON strategy nor the grammar succeeds the parser returns
null with no exception escaping; and in both situations the canonical
record of a direct dict entry is still emitted, with the
`parsed_nginx` field absent. -/
theorem C7_unparsed_still_emitted :
    (∀ j : Json, (∀ s, j ≠ Json.str s) → parse_nginx_log j = none) ∧
    (∀ s : String, (startsWithBrace s = false ∨ json_loads s = none) →
      nginxMatch s = none → parse_nginx_log_str s = none) ∧
    (∀ kvs : List (String × Json), ∀ ts s,
      jsonFind (Json.obj kvs) "message" = some (Json.str s) →
      parse_nginx_log_str s = none →
      ∃ em, process_log_entry (Json.obj kvs) "direct" ts = some em ∧
        jsonFind em.record "parsed_nginx" = none) ∧
    (∀ kvs : List (String × Json), ∀ ts,
      (∀ s, jsonFind (Json.obj kvs) "message" ≠ some (Json.str s)) →
      ∃ em, process_log_entry (Json.obj kvs) "direct" ts = some em ∧
        jsonFind em.record "parsed_nginx" = none) := by
  refine ⟨?_, ?_, ?_, ?_⟩
  · intro j hj
    cases j with
    | str s => exact absurd rfl (hj s)
    | null => rfl
    | bool b => rfl
    | num n => rfl
    | arr xs => rfl
    | obj kvs => rfl
  · intro s hj hm
    rcases hj with h | h
    · simp [parse_nginx_log_str, h, hm]
    · cases hb : startsWithBrace s <;> simp [parse_nginx_log_str, hb, h, hm]
  · intro kvs ts s hm hp
    obtain ⟨em, h1, h2, _⟩ := direct_emit_unparsed kvs ts (by
      intro s2 hs2
      rw [hm] at hs2
      simp only [Option.getD] at hs2
      cases Json.str.inj hs2
      exact hp)
    exact ⟨em, h1, h2⟩
  · intro kvs ts hm
    obtain ⟨em, h1, h2, _⟩ := direct_emit_unparsed kvs ts (by
      intro s2 hs2
      cases hfind : jsonFind (Json.obj kvs) "message" with
      | none => rw [hfind] at hs2; exact absurd hs2 (by simp [Option.getD])
      | some v =>
        rw [hfind] at hs2
        simp only [Option.getD] at hs2
        exact absurd (hs2 ▸ hfind) (hm s2))
    exact ⟨em, h1, h2⟩

/-- Claim C7 witness: the spec's unparseable direct entry — the record is
emitted with no `parsed_nginx` field. -/
theorem C7_witness :
    ∃ em, process_log_entry (Json.obj [("message", Json.str "not-a-valid-access-log-line")])
        "direct" "T" = some em ∧
      jsonFind em.record "parsed_nginx" = none :=
  C7_unparsed_still_emitted.2.2.1 [("message", Json.str "not-a-valid-access-log-line")] "T"
    "not-a-valid-access-log-line" rfl rfl

end NginxLogProcessor
